import Mathlib

/-!
Shallow embedding of the text-classification microservice
(`src/app/model.py` and `src/app/main.py`).

The sklearn pipeline (TfidfVectorizer + LogisticRegression) is external to
the repository; it is abstracted as a `Pipeline` record of functions, and the
guarantees sklearn provides for a fitted binary logistic-regression model
(predict agrees with the argmax of predict_proba, predict_proba rows are
probability distributions, vectorized calls act row-wise) are captured by the
predicate `Pipeline.Valid` and by embedding the vectorized batch calls as
per-row applications.  Probabilities are represented as rationals; Python
floats are abstracted to exact arithmetic, so "sums to 1 within tolerance"
becomes an exact sum.
-/

/-- Abstract interface of the fitted sklearn pipeline stored in
`TextClassificationModel.model`.  `predictRaw` is `model.predict` on one row,
`predictProba` is `model.predict_proba` on one row, giving the probabilities
for class 0 ("negativo") and class 1 ("positivo").  `featureCount` is the
size of `get_feature_names_out()` of the tfidf step, and `hasFeatureNamesOut`
records the `hasattr` test in `get_model_info`. -/
structure Pipeline where
  predictRaw : String → Nat
  predictProba : String → ℚ × ℚ
  featureCount : Nat
  hasFeatureNamesOut : Bool

/-- Contract of a fitted sklearn binary classifier: each probability row is a
distribution over the two classes and the predicted class attains the
maximal probability. -/
def Pipeline.Valid (m : Pipeline) : Prop :=
  ∀ t : String,
    0 ≤ (m.predictProba t).1 ∧ 0 ≤ (m.predictProba t).2 ∧
    (m.predictProba t).1 + (m.predictProba t).2 = 1 ∧
    (m.predictRaw t = 0 ∨ m.predictRaw t = 1) ∧
    (m.predictRaw t = 0 → (m.predictProba t).2 ≤ (m.predictProba t).1) ∧
    (m.predictRaw t = 1 → (m.predictProba t).1 ≤ (m.predictProba t).2)

/-- Python exceptions distinguished by the service layer: `ValueError`
(carrying its message), `KeyError` (a `label_map` lookup on an unexpected
class), and `AttributeError` (attribute access on `None`). -/
inductive PyError where
  | valueError (msg : String)
  | keyError
  | attributeError
deriving DecidableEq, Repr

/-- State of `TextClassificationModel` (model.py): the optional fitted
pipeline and the `is_loaded` flag. -/
structure TextClassificationModel where
  model : Option Pipeline
  is_loaded : Bool

/-- The `__init__` state: no model, not loaded. -/
def TextClassificationModel.init : TextClassificationModel :=
  { model := none, is_loaded := false }

/-- Value of the dict returned by `predict` (model.py lines 105-113):
text, predicted label, confidence, and the probabilities dict represented
as an association list in insertion order. -/
structure ClassificationResult where
  text : String
  prediction : String
  confidence : ℚ
  probabilities : List (String × ℚ)
deriving DecidableEq, Repr

/-- The `label_map = {0: "negativo", 1: "positivo"}` dict; `none` models a
`KeyError` on any other key. -/
def label_map (n : Nat) : Option String :=
  if n = 0 then some "negativo" else if n = 1 then some "positivo" else none

/-- Message of the ValueError raised by `predict` and `predict_batch` when
the model is not loaded (model.py lines 91 and 127). -/
def notLoadedMsg : String := "Modelo no cargado. Llama a load_model() primero."

/-- Body shared by `predict` (model.py lines 95-116) and one iteration of the
`predict_batch` loop (model.py lines 136-149): both compute the predicted
class, its label via `label_map`, the confidence as the maximum of the two
probabilities, and the probabilities dict, from the same pipeline calls. -/
def predictOne (m : Pipeline) (text : String) : Except PyError ClassificationResult :=
  let prediction := m.predictRaw text
  let probabilities := m.predictProba text
  match label_map prediction with
  | none => .error .keyError
  | some predicted_label =>
    .ok { text := text
          prediction := predicted_label
          confidence := max probabilities.1 probabilities.2
          probabilities := [("negativo", probabilities.1), ("positivo", probabilities.2)] }

/-- `TextClassificationModel.predict` (model.py lines 86-120): raises
ValueError when `not self.is_loaded or self.model is None`, otherwise runs
the pipeline on the single text. -/
def TextClassificationModel.predict (s : TextClassificationModel) (text : String) :
    Except PyError ClassificationResult :=
  match s.model, s.is_loaded with
  | some m, true => predictOne m text
  | _, _ => .error (.valueError notLoadedMsg)

/-- The `for i, text in enumerate(texts)` loop of `predict_batch` (model.py
lines 135-149): the vectorized `model.predict(texts)` / `predict_proba(texts)`
act row-wise, so entry `i` of each is the single-row application to
`texts[i]`; an exception in any iteration aborts the whole call. -/
def predictItems (m : Pipeline) : List String → Except PyError (List ClassificationResult)
  | [] => .ok []
  | t :: ts =>
    match predictOne m t with
    | .error e => .error e
    | .ok r =>
      match predictItems m ts with
      | .error e => .error e
      | .ok rs => .ok (r :: rs)

/-- `TextClassificationModel.predict_batch` (model.py lines 122-156). -/
def TextClassificationModel.predict_batch (s : TextClassificationModel) (texts : List String) :
    Except PyError (List ClassificationResult) :=
  match s.model, s.is_loaded with
  | some m, true => predictItems m texts
  | _, _ => .error (.valueError notLoadedMsg)

/-- Values appearing in the `get_model_info` dict: ints, strings, and a list
of class labels. -/
inductive InfoValue where
  | nat (n : Nat)
  | str (s : String)
  | list (l : List String)
deriving DecidableEq, BEq, Repr

/-- `TextClassificationModel.get_model_info` (model.py lines 158-170):
returns `{"status": "not_loaded"}` when `not self.is_loaded`, otherwise a
four-field dict; accessing `self.model.named_steps` with `model = None`
would raise AttributeError. -/
def TextClassificationModel.get_model_info (s : TextClassificationModel) :
    Except PyError (List (String × InfoValue)) :=
  if s.is_loaded = false then .ok [("status", .str "not_loaded")]
  else
    match s.model with
    | none => .error .attributeError
    | some m =>
      .ok [("status", .str "loaded"),
           ("model_type", .str "TF-IDF + Logistic Regression"),
           ("features", if m.hasFeatureNamesOut then .nat m.featureCount else .str "unknown"),
           ("classes", .list ["negativo", "positivo"])]

/-- Removal of leading and trailing elements satisfying `p` from a list:
drop the leading run, reverse, drop the (originally trailing) run, reverse
back. -/
def stripList {α : Type} (p : α → Bool) (l : List α) : List α :=
  ((l.dropWhile p).reverse.dropWhile p).reverse

/-- Python `str.strip()`: remove leading and trailing whitespace. -/
def pyStrip (s : String) : String :=
  String.mk (stripList Char.isWhitespace s.data)

/-- Rejections produced by the pydantic layer of main.py: the `Field`
constraints of `TextInput.text` (min_length=1, max_length=5000) and of
`BatchTextInput.texts` (min_items=1, max_items=100), and the explicit
`raise ValueError` branches of the two custom validators. -/
inductive ValidationError where
  | tooShort
  | tooLong
  | emptyAfterTrim
  | listTooShort
  | listTooLong
  | listEmptyValidator
  | itemEmpty
  | itemTooLong
deriving DecidableEq, Repr

/-- Validation of `TextInput.text` (main.py lines 24-31): pydantic first
enforces the `Field` length bounds on the raw string, then the custom
validator strips it, rejects an empty result, and returns the stripped
text. -/
def validate_text_input (text : String) : Except ValidationError String :=
  if text.length < 1 then .error .tooShort
  else if 5000 < text.length then .error .tooLong
  else if pyStrip text = "" then .error .emptyAfterTrim
  else .ok (pyStrip text)

/-- One iteration of the `for text in v` loop of `BatchTextInput.validate_texts`
(main.py lines 42-49): the `isinstance` check is subsumed by typing; then
empty-after-strip is rejected, then length over 5000 is rejected, and the
stripped text is appended. -/
def validate_item (text : String) : Except ValidationError String :=
  if pyStrip text = "" then .error .itemEmpty
  else if 5000 < text.length then .error .itemTooLong
  else .ok (pyStrip text)

/-- The whole loop of `BatchTextInput.validate_texts`, building
`cleaned_texts` in order; a raise in any iteration aborts the whole
validation. -/
def validate_items : List String → Except ValidationError (List String)
  | [] => .ok []
  | t :: ts =>
    match validate_item t with
    | .error e => .error e
    | .ok c =>
      match validate_items ts with
      | .error e => .error e
      | .ok cs => .ok (c :: cs)

/-- Validation of `BatchTextInput.texts` (main.py lines 33-51): pydantic
first enforces min_items=1 and max_items=100, then the custom validator
re-checks emptiness of the list and validates each item in order. -/
def validate_batch_input (texts : List String) : Except ValidationError (List String) :=
  if texts.length < 1 then .error .listTooShort
  else if 100 < texts.length then .error .listTooLong
  else if texts = [] then .error .listEmptyValidator
  else validate_items texts

/-- The `predict_text` endpoint handler (main.py lines 160-186) applied to an
already-validated input: delegates to `model_instance.predict`, maps a
ValueError to HTTP 400 with the exception message, and any other exception
to HTTP 500 with a fixed message. -/
def predict_text (s : TextClassificationModel) (input_text : String) :
    Except (Nat × String) ClassificationResult :=
  match s.predict input_text with
  | .ok result => .ok result
  | .error (.valueError msg) => .error (400, msg)
  | .error _ => .error (500, "Error interno al procesar la predicción")

/-- Outcome of a full single-prediction request: either a result, a pydantic
validation rejection, or an HTTP error from the endpoint handler. -/
inductive ServiceResp where
  | ok (r : ClassificationResult)
  | validationErr (e : ValidationError)
  | httpErr (status : Nat) (detail : String)
deriving DecidableEq, Repr

/-- The full `POST /predict` path: pydantic validation of the body, then the
endpoint handler on the validated (stripped) text. -/
def classify (s : TextClassificationModel) (raw : String) : ServiceResp :=
  match validate_text_input raw with
  | .error e => .validationErr e
  | .ok text =>
    match predict_text s text with
    | .ok r => .ok r
    | .error (st, d) => .httpErr st d

/-- Response of the `/health` endpoint (main.py lines 63-66). -/
structure HealthResponse where
  status : String
  model_loaded : Bool
  model_info : List (String × InfoValue)
deriving DecidableEq, Repr

/-- The `health_check` endpoint handler (main.py lines 139-158): reads
`get_model_info`, derives `model_loaded` from `status == "loaded"`, and maps
any exception to HTTP 503. -/
def health_check (s : TextClassificationModel) : Except (Nat × String) HealthResponse :=
  match s.get_model_info with
  | .ok model_info =>
    let model_loaded : Bool :=
      decide (model_info.lookup "status" = some (InfoValue.str "loaded"))
    .ok { status := if model_loaded then "healthy" else "unhealthy"
          model_loaded := model_loaded
          model_info := model_info }
  | .error _ => .error (503, "Servicio no disponible")

/-- A concrete pipeline used to instantiate the abstract sklearn interface in
witnesses: it always answers class 1 with probabilities (1/4, 3/4). -/
def constPipeline : Pipeline :=
  { predictRaw := fun _ => 1
    predictProba := fun _ => (1/4, 3/4)
    featureCount := 87
    hasFeatureNamesOut := true }

/-- A loaded model state holding `constPipeline`. -/
def loadedState : TextClassificationModel :=
  { model := some constPipeline, is_loaded := true }

/-- The result `constPipeline` produces for the input "hola". -/
def rcHola : ClassificationResult :=
  { text := "hola"
    prediction := "positivo"
    confidence := max (1/4 : ℚ) (3/4 : ℚ)
    probabilities := [("negativo", (1/4 : ℚ)), ("positivo", (3/4 : ℚ))] }

/-- A string of exactly 5000 letters. -/
def a5000 : String := String.mk (List.replicate 5000 'a')

/-- A string of exactly 5001 letters. -/
def a5001 : String := String.mk (List.replicate 5001 'a')

/-- A string of 5001 spaces: over the 5000-character bound and empty after
stripping. -/
def sp5001 : String := String.mk (List.replicate 5001 ' ')

/-- The letter a followed by 5000 spaces: 5001 characters before stripping,
one character after. -/
def padA : String := String.mk ('a' :: List.replicate 5000 ' ')

theorem constPipeline_valid : constPipeline.Valid := by
  intro t
  refine ⟨by norm_num [constPipeline], by norm_num [constPipeline],
    by norm_num [constPipeline], Or.inr rfl, fun h => ?_, fun _ => by norm_num [constPipeline]⟩
  simp [constPipeline] at h

/-- C1: for every input text accepted by a loaded classifier, `predict`
returns a result whose confidence is the maximum of the probability
distribution, whose predicted label attains that maximum, and whose
probabilities are non-negative and sum to 1. -/
theorem c1_predict_invariant (m : Pipeline) (hm : m.Valid) (text : String) :
    ∃ r, (TextClassificationModel.mk (some m) true).predict text = .ok r ∧
      (∀ p ∈ r.probabilities, p.2 ≤ r.confidence) ∧
      r.probabilities.lookup r.prediction = some r.confidence ∧
      (∀ p ∈ r.probabilities, 0 ≤ p.2) ∧
      (r.probabilities.map Prod.snd).sum = 1 := by
  obtain ⟨h1, h2, h3, h01, hle0, hle1⟩ := hm text
  rcases h01 with h0 | h0
  · refine ⟨{ text := text
              prediction := "negativo"
              confidence := max (m.predictProba text).1 (m.predictProba text).2
              probabilities := [("negativo", (m.predictProba text).1),
                ("positivo", (m.predictProba text).2)] }, ?_, ?_, ?_, ?_, ?_⟩
    · simp [TextClassificationModel.predict, predictOne, label_map, h0]
    · intro p hp
      simp only [List.mem_cons, List.mem_singleton, List.not_mem_nil, or_false] at hp
      rcases hp with h | h <;> subst h
      · exact le_max_left _ _
      · exact le_max_right _ _
    · simp [List.lookup, max_eq_left (hle0 h0)]
    · intro p hp
      simp only [List.mem_cons, List.mem_singleton, List.not_mem_nil, or_false] at hp
      rcases hp with h | h <;> subst h
      · exact h1
      · exact h2
    · simpa using h3
  · refine ⟨{ text := text
              prediction := "positivo"
              confidence := max (m.predictProba text).1 (m.predictProba text).2
              probabilities := [("negativo", (m.predictProba text).1),
                ("positivo", (m.predictProba text).2)] }, ?_, ?_, ?_, ?_, ?_⟩
    · simp [TextClassificationModel.predict, predictOne, label_map, h0]
    · intro p hp
      simp only [List.mem_cons, List.mem_singleton, List.not_mem_nil, or_false] at hp
      rcases hp with h | h <;> subst h
      · exact le_max_left _ _
      · exact le_max_right _ _
    · simp [List.lookup, max_eq_right (hle1 h0)]
    · intro p hp
      simp only [List.mem_cons, List.mem_singleton, List.not_mem_nil, or_false] at hp
      rcases hp with h | h <;> subst h
      · exact h1
      · exact h2
    · simpa using h3

/-- Witness for C1 at the concrete pipeline `constPipeline` and input
"hola". -/
theorem c1_predict_invariant_witness :
    ∃ r, (TextClassificationModel.mk (some constPipeline) true).predict "hola" = .ok r ∧
      (∀ p ∈ r.probabilities, p.2 ≤ r.confidence) ∧
      r.probabilities.lookup r.prediction = some r.confidence ∧
      (∀ p ∈ r.probabilities, 0 ≤ p.2) ∧
      (r.probabilities.map Prod.snd).sum = 1 :=
  c1_predict_invariant constPipeline constPipeline_valid "hola"

theorem predictItems_spec (m : Pipeline) (ts : List String) (rs : List ClassificationResult)
    (h : predictItems m ts = .ok rs) :
    rs.length = ts.length ∧
    ∀ i (hi : i < ts.length), ∃ r, predictOne m (ts.get ⟨i, hi⟩) = .ok r ∧ rs.get? i = some r := by
  induction ts generalizing rs with
  | nil =>
    simp only [predictItems] at h
    injection h with h
    subst h
    exact ⟨rfl, fun i hi => absurd hi (by simp)⟩
  | cons t ts ih =>
    simp only [predictItems] at h
    cases h1 : predictOne m t with
    | error e => rw [h1] at h; cases h
    | ok r =>
      rw [h1] at h
      cases h2 : predictItems m ts with
      | error e => rw [h2] at h; cases h
      | ok rs2 =>
        rw [h2] at h
        injection h with h
        subst h
        obtain ⟨hlen, hidx⟩ := ih rs2 h2
        refine ⟨by simp [hlen], ?_⟩
        intro i hi
        cases i with
        | zero => exact ⟨r, h1, rfl⟩
        | succ n =>
          obtain ⟨r2, hr2, hg2⟩ := hidx n (by simpa using hi)
          exact ⟨r2, hr2, hg2⟩

/-- C2: whenever `predict_batch` succeeds, it returns exactly one result per
input, in input order, and the i-th result equals the result of `predict` on
the i-th text against the same model state. -/
theorem c2_batch_single_consistency (s : TextClassificationModel) (texts : List String)
    (rs : List ClassificationResult) (h : s.predict_batch texts = .ok rs)
    (i : Nat) (hi : i < texts.length) :
    rs.length = texts.length ∧
    ∃ r, s.predict (texts.get ⟨i, hi⟩) = .ok r ∧ rs.get? i = some r := by
  obtain ⟨mo, il⟩ := s
  cases mo with
  | none => cases il <;> exact absurd h (by simp [TextClassificationModel.predict_batch])
  | some m =>
    cases il with
    | false => exact absurd h (by simp [TextClassificationModel.predict_batch])
    | true =>
      have hb : predictItems m texts = .ok rs := h
      obtain ⟨hlen, hidx⟩ := predictItems_spec m texts rs hb
      obtain ⟨r, hr, hg⟩ := hidx i hi
      exact ⟨hlen, r, hr, hg⟩

/-- Witness for C2 on the loaded state with the one-element batch "hola". -/
theorem c2_batch_single_consistency_witness :
    ([rcHola] : List ClassificationResult).length = (["hola"] : List String).length ∧
    ∃ r, loadedState.predict ((["hola"] : List String).get ⟨0, by decide⟩) = .ok r ∧
      ([rcHola] : List ClassificationResult).get? 0 = some r :=
  c2_batch_single_consistency loadedState ["hola"] [rcHola] rfl 0 (by decide)

/-- C3 counterexample: with the model not loaded, the endpoint handler maps
the not-ready ValueError raised by `predict` to HTTP 400 (the validation
branch of main.py lines 175-180), not to HTTP 500 as the claim states. -/
theorem c3_counterexample :
    predict_text TextClassificationModel.init "hola" = .error (400, notLoadedMsg) ∧
    (400 : Nat) ≠ 500 :=
  ⟨rfl, by decide⟩

/-- C3 amended: when the classifier is not loaded, a single-predict request
with valid input is answered with HTTP 400 carrying the not-ready message,
because the ValueError raised by `predict` is caught by the handler branch
reserved for validation errors. -/
theorem c3_not_ready_maps_to_400 (s : TextClassificationModel)
    (h : s.is_loaded = false ∨ s.model = none) (t : String) :
    predict_text s t = .error (400, notLoadedMsg) := by
  obtain ⟨mo, il⟩ := s
  rcases h with h | h
  · simp only at h
    subst h
    cases mo <;> rfl
  · simp only at h
    subst h
    cases il <;> rfl

/-- Witness for the amended C3 at the freshly initialized model state. -/
theorem c3_not_ready_maps_to_400_witness :
    predict_text TextClassificationModel.init "abc" = .error (400, notLoadedMsg) :=
  c3_not_ready_maps_to_400 TextClassificationModel.init (Or.inl rfl) "abc"

/-- C6: `predict_batch` is all or nothing: if the model is unavailable it
fails as a whole with the not-ready ValueError, and in every case it either
returns exactly one result per input or fails with a single error and no
partial result list. -/
theorem c6_batch_all_or_nothing (s : TextClassificationModel) (texts : List String) :
    ((s.is_loaded = false ∨ s.model = none) →
      s.predict_batch texts = .error (.valueError notLoadedMsg)) ∧
    ((∃ rs, s.predict_batch texts = .ok rs ∧ rs.length = texts.length) ∨
      (∃ e, s.predict_batch texts = .error e)) := by
  obtain ⟨mo, il⟩ := s
  constructor
  · intro h
    rcases h with h | h
    · simp only at h
      subst h
      cases mo <;> rfl
    · simp only at h
      subst h
      cases il <;> rfl
  · cases mo with
    | none => exact Or.inr ⟨.valueError notLoadedMsg, by cases il <;> rfl⟩
    | some m =>
      cases il with
      | false => exact Or.inr ⟨.valueError notLoadedMsg, rfl⟩
      | true =>
        cases hb : predictItems m texts with
        | error e => exact Or.inr ⟨e, hb⟩
        | ok rs => exact Or.inl ⟨rs, hb, (predictItems_spec m texts rs hb).1⟩

/-- Witness for C6 at the not-loaded initial state and a singleton batch. -/
theorem c6_batch_all_or_nothing_witness :
    TextClassificationModel.init.predict_batch ["x"] = .error (.valueError notLoadedMsg) ∧
    ((∃ rs, TextClassificationModel.init.predict_batch ["x"] = .ok rs ∧
        rs.length = (["x"] : List String).length) ∨
      (∃ e, TextClassificationModel.init.predict_batch ["x"] = .error e)) :=
  ⟨(c6_batch_all_or_nothing TextClassificationModel.init ["x"]).1 (Or.inl rfl),
   (c6_batch_all_or_nothing TextClassificationModel.init ["x"]).2⟩

theorem dropWhile_eq_nil_or_head_neg {α : Type} (p : α → Bool) (l : List α) :
    l.dropWhile p = [] ∨ ∃ a t, l.dropWhile p = a :: t ∧ p a = false := by
  induction l with
  | nil => exact Or.inl rfl
  | cons a l ih =>
    by_cases h : p a = true
    · rw [List.dropWhile_cons_of_pos h]
      exact ih
    · exact Or.inr ⟨a, l, List.dropWhile_cons_of_neg h, by simpa using h⟩

theorem stripList_idem {α : Type} (p : α → Bool) (l : List α) :
    stripList p (stripList p l) = stripList p l := by
  unfold stripList
  have h2 : ((l.dropWhile p).reverse.dropWhile p).dropWhile p =
      (l.dropWhile p).reverse.dropWhile p := by
    rcases dropWhile_eq_nil_or_head_neg p (l.dropWhile p).reverse with hn | ⟨a, t, ht, ha⟩
    · rw [hn]
      rfl
    · rw [ht]
      exact List.dropWhile_cons_of_neg (by simp [ha])
  have h3 : (((l.dropWhile p).reverse.dropWhile p).reverse).dropWhile p =
      ((l.dropWhile p).reverse.dropWhile p).reverse := by
    cases hc : ((l.dropWhile p).reverse.dropWhile p).reverse with
    | nil => rfl
    | cons a t =>
      have hsplit : ((l.dropWhile p).reverse.dropWhile p).reverse ++
          ((l.dropWhile p).reverse.takeWhile p).reverse = l.dropWhile p := by
        calc ((l.dropWhile p).reverse.dropWhile p).reverse ++
            ((l.dropWhile p).reverse.takeWhile p).reverse
            = ((l.dropWhile p).reverse.takeWhile p ++
                (l.dropWhile p).reverse.dropWhile p).reverse := by
              rw [List.reverse_append]
          _ = ((l.dropWhile p).reverse).reverse := by
              rw [List.takeWhile_append_dropWhile]
          _ = l.dropWhile p := List.reverse_reverse _
      rw [hc] at hsplit
      rcases dropWhile_eq_nil_or_head_neg p l with hn | ⟨b, tb, hbt, hb⟩
      · rw [hn] at hsplit
        simp at hsplit
      · rw [hbt] at hsplit
        have hab : a = b := by
          have := congrArg List.head? hsplit
          simpa using this
        exact List.dropWhile_cons_of_neg (by simp [hab, hb])
  rw [h3, List.reverse_reverse, h2]

theorem pyStrip_idem (s : String) : pyStrip (pyStrip s) = pyStrip s := by
  unfold pyStrip
  exact congrArg String.mk (stripList_idem Char.isWhitespace s.data)

theorem dropWhile_length_le_self {α : Type} (p : α → Bool) (l : List α) :
    (l.dropWhile p).length ≤ l.length := by
  induction l with
  | nil => simp
  | cons a l ih =>
    by_cases h : p a = true
    · rw [List.dropWhile_cons_of_pos h]
      exact le_trans ih (Nat.le_succ _)
    · rw [List.dropWhile_cons_of_neg h]

theorem stripList_length_le {α : Type} (p : α → Bool) (l : List α) :
    (stripList p l).length ≤ l.length := by
  unfold stripList
  calc (((l.dropWhile p).reverse.dropWhile p).reverse).length
      = ((l.dropWhile p).reverse.dropWhile p).length := List.length_reverse _
    _ ≤ (l.dropWhile p).reverse.length := dropWhile_length_le_self _ _
    _ = (l.dropWhile p).length := List.length_reverse _
    _ ≤ l.length := dropWhile_length_le_self _ _

theorem pyStrip_length_le (s : String) : (pyStrip s).length ≤ s.length :=
  stripList_length_le Char.isWhitespace s.data

theorem dropWhile_ws_replicate_space (n : Nat) (l : List Char) :
    List.dropWhile Char.isWhitespace (List.replicate n ' ' ++ l) =
      List.dropWhile Char.isWhitespace l := by
  induction n with
  | zero => simp
  | succ n ih =>
    rw [List.replicate_succ, List.cons_append, List.dropWhile_cons_of_pos (by decide)]
    exact ih

theorem dropWhile_ws_replicate_nonws (n : Nat) (c : Char) (h : c.isWhitespace = false) :
    List.dropWhile Char.isWhitespace (List.replicate n c) = List.replicate n c := by
  cases n with
  | zero => rfl
  | succ n => rw [List.replicate_succ, List.dropWhile_cons_of_neg (by simp [h])]

theorem stripList_replicate_a (n : Nat) :
    stripList Char.isWhitespace (List.replicate n 'a') = List.replicate n 'a' := by
  unfold stripList
  rw [dropWhile_ws_replicate_nonws n 'a' (by decide), List.reverse_replicate,
    dropWhile_ws_replicate_nonws n 'a' (by decide), List.reverse_replicate]

theorem pyStrip_a5000 : pyStrip a5000 = a5000 := by
  unfold pyStrip a5000
  exact congrArg String.mk (stripList_replicate_a 5000)

theorem pyStrip_sp5001 : pyStrip sp5001 = "" := by
  unfold pyStrip sp5001 stripList
  rw [show List.replicate 5001 ' ' = List.replicate 5001 ' ' ++ [] from (List.append_nil _).symm,
    dropWhile_ws_replicate_space]
  rfl

theorem pyStrip_padA : pyStrip padA = "a" := by
  unfold pyStrip padA stripList
  rw [List.dropWhile_cons_of_neg (by decide), List.reverse_cons, List.reverse_replicate,
    dropWhile_ws_replicate_space, List.dropWhile_cons_of_neg (by decide)]
  rfl

theorem a5000_length : a5000.length = 5000 := by
  show (List.replicate 5000 'a').length = 5000
  rw [List.length_replicate]

theorem a5001_length : a5001.length = 5001 := by
  show (List.replicate 5001 'a').length = 5001
  rw [List.length_replicate]

theorem sp5001_length : sp5001.length = 5001 := by
  show (List.replicate 5001 ' ').length = 5001
  rw [List.length_replicate]

theorem padA_length : padA.length = 5001 := by
  show ('a' :: List.replicate 5000 ' ').length = 5001
  rw [List.length_cons, List.length_replicate]

theorem a5000_ne_empty : a5000 ≠ "" := by
  intro h
  have hd : List.replicate 5000 'a' = [] := congrArg String.data h
  have : (List.replicate 5000 'a').length = ([] : List Char).length := by rw [hd]
  rw [List.length_replicate] at this
  simp at this

theorem string_empty_of_length_lt_one (s : String) (h : s.length < 1) : s = "" := by
  cases s with
  | mk data =>
    cases data with
    | nil => rfl
    | cons a l => simp [String.length] at h

theorem validate_items_ok (l : List String)
    (h : ∀ t ∈ l, pyStrip t ≠ "" ∧ t.length ≤ 5000) :
    validate_items l = .ok (l.map pyStrip) := by
  induction l with
  | nil => rfl
  | cons t ts ih =>
    obtain ⟨h1, h2⟩ := h t (List.mem_cons_self t ts)
    have hv : validate_item t = .ok (pyStrip t) := by
      unfold validate_item
      rw [if_neg h1, if_neg (by omega : ¬ 5000 < t.length)]
    have hr : validate_items ts = .ok (ts.map pyStrip) :=
      ih (fun u hu => h u (List.mem_cons_of_mem _ hu))
    simp only [validate_items, hv, hr, List.map_cons]

/-- C4: single-text validation accepts exactly 5000 characters, rejects 5001
characters, and rejects any text empty after stripping; batch validation
rejects 0 and 101 items and accepts exactly 1 and exactly 100 valid items. -/
theorem c4_validation_bounds :
    (∀ s : String, s.length = 5000 → pyStrip s ≠ "" →
      validate_text_input s = .ok (pyStrip s)) ∧
    (∀ s : String, s.length = 5001 → validate_text_input s = .error .tooLong) ∧
    (∀ s : String, pyStrip s = "" → ∃ e, validate_text_input s = .error e) ∧
    validate_batch_input [] = .error .listTooShort ∧
    (∀ l : List String, l.length = 101 → validate_batch_input l = .error .listTooLong) ∧
    (∀ l : List String, l.length = 1 → (∀ t ∈ l, pyStrip t ≠ "" ∧ t.length ≤ 5000) →
      validate_batch_input l = .ok (l.map pyStrip)) ∧
    (∀ l : List String, l.length = 100 → (∀ t ∈ l, pyStrip t ≠ "" ∧ t.length ≤ 5000) →
      validate_batch_input l = .ok (l.map pyStrip)) := by
  refine ⟨?_, ?_, ?_, rfl, ?_, ?_, ?_⟩
  · intro s h5 hne
    unfold validate_text_input
    rw [if_neg (by omega), if_neg (by omega), if_neg hne]
  · intro s h5
    unfold validate_text_input
    rw [if_neg (by omega), if_pos (by omega)]
  · intro s he
    unfold validate_text_input
    by_cases h1 : s.length < 1
    · exact ⟨.tooShort, by rw [if_pos h1]⟩
    · by_cases h2 : 5000 < s.length
      · exact ⟨.tooLong, by rw [if_neg h1, if_pos h2]⟩
      · exact ⟨.emptyAfterTrim, by rw [if_neg h1, if_neg h2, if_pos he]⟩
  · intro l h
    unfold validate_batch_input
    rw [if_neg (by omega), if_pos (by omega)]
  · intro l hlen hitems
    unfold validate_batch_input
    rw [if_neg (by omega), if_neg (by omega),
      if_neg (by rintro rfl; simp at hlen)]
    exact validate_items_ok l hitems
  · intro l hlen hitems
    unfold validate_batch_input
    rw [if_neg (by omega), if_neg (by omega),
      if_neg (by rintro rfl; simp at hlen)]
    exact validate_items_ok l hitems

/-- Witness for C4 at concrete boundary inputs: 5000 letters, 5001 letters, a
blank text, the empty batch, and batches of 101, 1 and 100 items. -/
theorem c4_validation_bounds_witness :
    validate_text_input a5000 = .ok (pyStrip a5000) ∧
    validate_text_input a5001 = .error .tooLong ∧
    (∃ e, validate_text_input "   " = .error e) ∧
    validate_batch_input [] = .error .listTooShort ∧
    validate_batch_input (List.replicate 101 "x") = .error .listTooLong ∧
    validate_batch_input ["x"] = .ok (["x"].map pyStrip) ∧
    validate_batch_input (List.replicate 100 "x") =
      .ok ((List.replicate 100 "x").map pyStrip) := by
  obtain ⟨h1, h2, h3, h4, h5, h6, h7⟩ := c4_validation_bounds
  refine ⟨h1 a5000 a5000_length (by rw [pyStrip_a5000]; exact a5000_ne_empty),
    h2 a5001 a5001_length,
    h3 "   " (by decide),
    h4,
    h5 _ (List.length_replicate 101 "x"),
    h6 _ rfl ?_,
    h7 _ (List.length_replicate 100 "x") ?_⟩
  · intro t ht
    rw [List.mem_singleton] at ht
    subst ht
    exact ⟨by decide, by decide⟩
  · intro t ht
    have := List.eq_of_mem_replicate ht
    subst this
    exact ⟨by decide, by decide⟩

/-- C5 counterexample: a batch item of 5001 spaces violates the length bound,
yet the rejection reported by batch validation is the emptiness error, because
`BatchTextInput.validate_texts` checks empty-after-strip before the length
bound; the claimed order (length bound first) would report the length
error. -/
theorem c5_counterexample :
    5000 < sp5001.length ∧
    validate_batch_input [sp5001] = .error .itemEmpty ∧
    ValidationError.itemEmpty ≠ ValidationError.itemTooLong := by
  refine ⟨by rw [sp5001_length]; omega, ?_, by decide⟩
  have hv : validate_item sp5001 = .error .itemEmpty := by
    unfold validate_item
    rw [if_pos pyStrip_sp5001]
  unfold validate_batch_input
  rw [if_neg (by simp), if_neg (by simp), if_neg (by simp)]
  simp only [validate_items, hv]

/-- C5 amended: single-text validation checks the untrimmed length bound
first, then strips and re-checks emptiness; per-batch-item validation instead
checks emptiness-after-strip first and the untrimmed length bound second, so
for a batch item that is both over-long and blank the emptiness rejection is
the one reported. -/
theorem c5_check_order (s t u v : String) (hs : 5000 < s.length)
    (h1 : 1 ≤ t.length) (h2 : t.length ≤ 5000) (h3 : pyStrip t = "")
    (hu : pyStrip u = "") (hv1 : pyStrip v ≠ "") (hv2 : 5000 < v.length) :
    validate_text_input s = .error .tooLong ∧
    validate_text_input t = .error .emptyAfterTrim ∧
    validate_item u = .error .itemEmpty ∧
    validate_item v = .error .itemTooLong := by
  refine ⟨?_, ?_, ?_, ?_⟩
  · unfold validate_text_input
    rw [if_neg (by omega), if_pos hs]
  · unfold validate_text_input
    rw [if_neg (by omega), if_neg (by omega), if_pos h3]
  · unfold validate_item
    rw [if_pos hu]
  · unfold validate_item
    rw [if_neg hv1, if_pos hv2]

/-- Witness for the amended C5 at a 5001-letter text, a blank 3-space text, a
blank batch item, and an over-long non-blank batch item. -/
theorem c5_check_order_witness :
    validate_text_input a5001 = .error .tooLong ∧
    validate_text_input "   " = .error .emptyAfterTrim ∧
    validate_item "  " = .error .itemEmpty ∧
    validate_item padA = .error .itemTooLong :=
  c5_check_order a5001 "   " "  " padA (by rw [a5001_length]; omega)
    (by decide) (by decide) (by decide) (by decide)
    (by rw [pyStrip_padA]; decide) (by rw [padA_length]; omega)

/-- C7 counterexample: `padA` strips to "a", which is well within the length
bound, yet classify rejects `padA` (5001 characters before stripping, caught
by the untrimmed max_length check) while it accepts "a", so the two calls do
not behave identically even though the trimmed form alone satisfies the
bound. -/
theorem c7_counterexample :
    pyStrip padA = "a" ∧ (pyStrip padA).length ≤ 5000 ∧
    classify loadedState padA ≠ classify loadedState "a" := by
  refine ⟨pyStrip_padA, by rw [pyStrip_padA]; decide, ?_⟩
  have hval : validate_text_input padA = .error .tooLong := by
    unfold validate_text_input
    rw [if_neg (by rw [padA_length]; omega), if_pos (by rw [padA_length]; omega)]
  have h1 : classify loadedState padA = .validationErr .tooLong := by
    unfold classify
    rw [hval]
  have hval2 : validate_text_input "a" = .ok "a" := rfl
  have h2 : ∃ r, classify loadedState "a" = ServiceResp.ok r := by
    refine ⟨{ text := "a"
              prediction := "positivo"
              confidence := max ((1:ℚ)/4) ((3:ℚ)/4)
              probabilities := [("negativo", (1:ℚ)/4), ("positivo", (3:ℚ)/4)] }, ?_⟩
    unfold classify
    rw [hval2]
    rfl
  obtain ⟨r, h2⟩ := h2
  rw [h1, h2]
  exact fun hco => ServiceResp.noConfusion hco

/-- C7 amended: whenever the raw text itself passes single-text validation
(in particular its untrimmed length is within the bound), the classify path
on the raw text and on its stripped form produce the same response, for any
model state. -/
theorem c7_trim_equivalence (s : TextClassificationModel) (t : String)
    (h : ∃ c, validate_text_input t = .ok c) :
    classify s t = classify s (pyStrip t) := by
  obtain ⟨c, hc⟩ := h
  unfold validate_text_input at hc
  by_cases h1 : t.length < 1
  · rw [if_pos h1] at hc
    cases hc
  · rw [if_neg h1] at hc
    by_cases h2 : 5000 < t.length
    · rw [if_pos h2] at hc
      cases hc
    · rw [if_neg h2] at hc
      by_cases h3 : pyStrip t = ""
      · rw [if_pos h3] at hc
        cases hc
      · rw [if_neg h3] at hc
        have hv1 : validate_text_input t = .ok (pyStrip t) := by
          unfold validate_text_input
          rw [if_neg h1, if_neg h2, if_neg h3]
        have hpos : ¬ (pyStrip t).length < 1 := by
          intro hlt
          exact h3 (string_empty_of_length_lt_one _ hlt)
        have hlen : ¬ 5000 < (pyStrip t).length := by
          have := pyStrip_length_le t
          omega
        have hne : ¬ pyStrip (pyStrip t) = "" := by
          rw [pyStrip_idem]
          exact h3
        have hv2 : validate_text_input (pyStrip t) = .ok (pyStrip (pyStrip t)) := by
          unfold validate_text_input
          rw [if_neg hpos, if_neg hlen, if_neg hne]
        unfold classify
        rw [hv1, hv2, pyStrip_idem]

/-- Witness for the amended C7: " hola " passes validation, and classify on
it agrees with classify on its stripped form. -/
theorem c7_trim_equivalence_witness :
    classify loadedState " hola " = classify loadedState (pyStrip " hola ") :=
  c7_trim_equivalence loadedState " hola " ⟨"hola", rfl⟩

/-- C8: for any not-yet-loaded state, health_check does not fail and returns
the unhealthy response with model_loaded false; moreover every successful
health response has status "healthy" exactly when model_loaded is true, and
model_loaded holds exactly when the info dict reports status "loaded". -/
theorem c8_health_unhealthy_before_load (s : TextClassificationModel)
    (h : s.is_loaded = false) :
    health_check s = .ok { status := "unhealthy"
                           model_loaded := false
                           model_info := [("status", InfoValue.str "not_loaded")] } ∧
    (∀ (s2 : TextClassificationModel) (r : HealthResponse), health_check s2 = .ok r →
      ((r.status = "healthy" ↔ r.model_loaded = true) ∧
       (r.model_loaded = true ↔
         r.model_info.lookup "status" = some (InfoValue.str "loaded")))) := by
  constructor
  · have hinfo : s.get_model_info = .ok [("status", InfoValue.str "not_loaded")] := by
      unfold TextClassificationModel.get_model_info
      rw [if_pos h]
    unfold health_check
    rw [hinfo]
    rfl
  · intro s2 r hr
    unfold health_check at hr
    cases hg : s2.get_model_info with
    | error e =>
      rw [hg] at hr
      cases hr
    | ok info =>
      rw [hg] at hr
      injection hr with hr
      subst hr
      constructor
      · cases hb : decide (info.lookup "status" = some (InfoValue.str "loaded")) with
        | false => simp [hb]
        | true => simp [hb]
      · exact decide_eq_true_iff

/-- Witness for C8 at the freshly initialized (not loaded) state. -/
theorem c8_health_unhealthy_before_load_witness :
    health_check TextClassificationModel.init =
      .ok { status := "unhealthy"
            model_loaded := false
            model_info := [("status", InfoValue.str "not_loaded")] } ∧
    (∀ (s2 : TextClassificationModel) (r : HealthResponse), health_check s2 = .ok r →
      ((r.status = "healthy" ↔ r.model_loaded = true) ∧
       (r.model_loaded = true ↔
         r.model_info.lookup "status" = some (InfoValue.str "loaded")))) :=
  c8_health_unhealthy_before_load TextClassificationModel.init rfl

/-- C9: on every state satisfying the class invariant (the loaded flag
implies a stored pipeline, which holds in all states the class can reach),
get_model_info does not fail; it returns the not_loaded record on the
initial state, the full loaded record on loaded states, and, being a pure
read of the state, repeated calls with no intervening load return identical
results. -/
theorem c9_get_info (s : TextClassificationModel)
    (hinv : s.is_loaded = true → s.model ≠ none) :
    (∃ info, s.get_model_info = .ok info) ∧
    TextClassificationModel.init.get_model_info =
      .ok [("status", InfoValue.str "not_loaded")] ∧
    (∀ m : Pipeline, s.model = some m → s.is_loaded = true →
      s.get_model_info = .ok [("status", .str "loaded"),
        ("model_type", .str "TF-IDF + Logistic Regression"),
        ("features", if m.hasFeatureNamesOut then InfoValue.nat m.featureCount
          else InfoValue.str "unknown"),
        ("classes", .list ["negativo", "positivo"])]) ∧
    s.get_model_info = s.get_model_info := by
  refine ⟨?_, rfl, ?_, rfl⟩
  · obtain ⟨mo, il⟩ := s
    cases il with
    | false =>
      exact ⟨_, by unfold TextClassificationModel.get_model_info; rw [if_pos rfl]⟩
    | true =>
      cases mo with
      | none => exact absurd rfl (hinv rfl)
      | some m =>
        exact ⟨_, by unfold TextClassificationModel.get_model_info; rw [if_neg (by simp)]⟩
  · intro m hm hl
    obtain ⟨mo, il⟩ := s
    simp only at hm hl
    subst hm
    subst hl
    unfold TextClassificationModel.get_model_info
    rw [if_neg (by simp)]

/-- Witness for C9 at the loaded state holding the concrete pipeline. -/
theorem c9_get_info_witness :
    (∃ info, loadedState.get_model_info = .ok info) ∧
    TextClassificationModel.init.get_model_info =
      .ok [("status", InfoValue.str "not_loaded")] ∧
    (∀ m : Pipeline, loadedState.model = some m → loadedState.is_loaded = true →
      loadedState.get_model_info = .ok [("status", .str "loaded"),
        ("model_type", .str "TF-IDF + Logistic Regression"),
        ("features", if m.hasFeatureNamesOut then InfoValue.nat m.featureCount
          else InfoValue.str "unknown"),
        ("classes", .list ["negativo", "positivo"])]) ∧
    loadedState.get_model_info = loadedState.get_model_info :=
  c9_get_info loadedState (fun _ => by simp [loadedState])

/-- C10: before a successful load the info dict carries only the status
field, with value not_loaded and no model_type, features or classes keys;
every loaded-state dict carries all four keys. -/
theorem c10_info_fields (s : TextClassificationModel) (h : s.is_loaded = false) :
    (∃ info, s.get_model_info = .ok info ∧
      info.lookup "status" = some (InfoValue.str "not_loaded") ∧
      info.length = 1 ∧
      info.lookup "model_type" = none ∧
      info.lookup "features" = none ∧
      info.lookup "classes" = none) ∧
    (∀ (m : Pipeline) (info : List (String × InfoValue)),
      (TextClassificationModel.mk (some m) true).get_model_info = .ok info →
      (info.lookup "status" = some (InfoValue.str "loaded") ∧
       (∃ v, info.lookup "model_type" = some v) ∧
       (∃ v, info.lookup "features" = some v) ∧
       (∃ v, info.lookup "classes" = some v))) := by
  constructor
  · refine ⟨[("status", InfoValue.str "not_loaded")], ?_, rfl, rfl, rfl, rfl, rfl⟩
    unfold TextClassificationModel.get_model_info
    rw [if_pos h]
  · intro m info hg
    have hcalc : (TextClassificationModel.mk (some m) true).get_model_info =
        .ok [("status", .str "loaded"),
          ("model_type", .str "TF-IDF + Logistic Regression"),
          ("features", if m.hasFeatureNamesOut then InfoValue.nat m.featureCount
            else InfoValue.str "unknown"),
          ("classes", .list ["negativo", "positivo"])] := by
      unfold TextClassificationModel.get_model_info
      rw [if_neg (by simp)]
    rw [hcalc] at hg
    injection hg with hg
    subst hg
    exact ⟨rfl, ⟨_, rfl⟩, ⟨_, rfl⟩, ⟨_, rfl⟩⟩

/-- Witness for C10 at the freshly initialized state. -/
theorem c10_info_fields_witness :
    (∃ info, TextClassificationModel.init.get_model_info = .ok info ∧
      info.lookup "status" = some (InfoValue.str "not_loaded") ∧
      info.length = 1 ∧
      info.lookup "model_type" = none ∧
      info.lookup "features" = none ∧
      info.lookup "classes" = none) ∧
    (∀ (m : Pipeline) (info : List (String × InfoValue)),
      (TextClassificationModel.mk (some m) true).get_model_info = .ok info →
      (info.lookup "status" = some (InfoValue.str "loaded") ∧
       (∃ v, info.lookup "model_type" = some v) ∧
       (∃ v, info.lookup "features" = some v) ∧
       (∃ v, info.lookup "classes" = some v))) :=
  c10_info_fields TextClassificationModel.init rfl
